import Mathlib

/-!
Verification of the OCSP response prefetching subsystem
(`certbot_apache/_internal/prefetch_ocsp.py`).

The embedding models time as whole seconds (`Int`), file contents and
key-value stores as explicit values, and the external collaborators
(the OCSP revocation checker, the plugin storage, the underlying Apache
restart) as oracle inputs.  Fallible operations return `Except`, with the
error constructor carrying the post-failure state so that frame conditions
can be stated about failing runs as well.
-/

namespace PrefetchOcsp

/-! ## TTL calculator: `OCSPPrefetchMixin._ocsp_ttl`

The source computes `res_ttl = int((next_update - now).total_seconds())`,
requires `res_ttl > 0`, then `safe_ttl = res_ttl - 30 * hour`, and returns
`safe_ttl` only when `safe_ttl > hour`; every other branch raises
`errors.PluginError`.  Times are modelled at whole-second granularity. -/

inductive TtlErr
  /-- nextUpdate missing from the response -/
  | noNextUpdate
  /-- nextUpdate is in the past (non-positive delta) -/
  | notPositive
  /-- nextUpdate minus the 30 hour margin is not more than one hour away -/
  | marginTooSmall
deriving DecidableEq, Repr

/-- Seconds in an hour, the `hour = 3600` local of `_ocsp_ttl`. -/
def hourSec : Int := 3600

/-- Shallow embedding of `OCSPPrefetchMixin._ocsp_ttl`. -/
def ocsp_ttl (next_update : Option Int) (now : Int) : Except TtlErr Int :=
  match next_update with
  | some nu =>
    let res_ttl := nu - now
    if res_ttl > 0 then
      let safe_ttl := res_ttl - 30 * hourSec
      if safe_ttl > hourSec then
        Except.ok safe_ttl
      else
        Except.error TtlErr.marginTooSmall
    else
      Except.error TtlErr.notPositive
  | none => Except.error TtlErr.noNextUpdate

/-! ## Refresh due check: `OCSPPrefetchMixin._ocsp_refresh_needed`

`ttl = lastupdate + constants.OCSP_INTERNAL_TTL; return ttl < time.time()`.
The constant `OCSP_INTERNAL_TTL` lives outside the analysed file, so it is a
parameter here; the claims hold for every value of it. -/

/-- Shallow embedding of `OCSPPrefetchMixin._ocsp_refresh_needed`. -/
def ocsp_refresh_needed (ocspInternalTTL : Int) (lastupdate : Int) (now : Int) : Bool :=
  let ttl := lastupdate + ocspInternalTTL
  if ttl < now then true else false

/-! ## Claims C3, C6, C7 -/

/-- C3: the TTL calculation fails whenever nextUpdate is absent, in the past,
yields a non-positive delta, or leaves at most one hour beyond the 30-hour
margin; when nextUpdate is more than 31 hours in the future it returns
`(nextUpdate - now) - 30h` seconds.  (At whole-second granularity the failure
condition `safe_ttl ≤ 1h` is exactly `delta ≤ 31h`.) -/
theorem ocsp_ttl_policy (nu : Option Int) (now : Int) :
    ((∀ t, nu = some t → t - now - 30 * 3600 ≤ 3600) →
      (ocsp_ttl nu now).isOk = false) ∧
    (∀ t, nu = some t → 31 * 3600 < t - now →
      ocsp_ttl nu now = Except.ok (t - now - 30 * 3600)) := by
  constructor
  · intro h
    match nu with
    | none => rfl
    | some t =>
      have ht := h t rfl
      simp only [ocsp_ttl, hourSec]
      split
      · split
        · omega
        · rfl
      · rfl
  · intro t ht hgt
    subst ht
    simp only [ocsp_ttl, hourSec]
    split
    · split
      · rfl
      · omega
    · omega

/-- Witness for C3 at concrete inputs: an absent nextUpdate fails, and a
nextUpdate of 31 hours and one second in the future yields 3601 seconds. -/
theorem ocsp_ttl_policy_witness :
    (ocsp_ttl none 0).isOk = false ∧
      ocsp_ttl (some 111601) 0 = Except.ok 3601 :=
  ⟨(ocsp_ttl_policy none 0).1 (by intro t ht; cases ht),
   (ocsp_ttl_policy (some 111601) 0).2 111601 rfl (by norm_num)⟩

/-- C6 counterexample: an entry whose age equals the internal TTL constant
exactly is NOT considered due (the source comparison `ttl < time.time()` is
strict), contradicting the claimed `>=` semantics.  Concretely with constant
100, lastupdate 0 and now 100 the check returns false. -/
theorem refresh_needed_equal_age_not_due :
    ocsp_refresh_needed 100 0 100 = false := rfl

/-- C6 amended: a tracked entry is due exactly when `now - last_update` is
STRICTLY greater than the internal TTL constant; an entry whose age equals
the constant exactly is not yet due. -/
theorem refresh_needed_strict (ttlConst lastupdate now : Int) :
    ocsp_refresh_needed ttlConst lastupdate now = true ↔
      now - lastupdate > ttlConst := by
  simp only [ocsp_refresh_needed]
  split
  · simp
    omega
  · simp
    omega

/-- C7 counterexample: for a nextUpdate exactly 30 hours and one minute in
the future the TTL calculation does not succeed — the margin-adjusted value
60s is not greater than the one-hour minimum, so `_ocsp_ttl` raises. -/
theorem ocsp_ttl_30h1m_fails :
    (ocsp_ttl (some (30 * 3600 + 60)) 0).isOk = false := rfl

/-- C7 amended: a nextUpdate exactly 30 hours and one minute in the future
makes the TTL calculation fail with the margin error (60 seconds of slack is
not above the one-hour minimum); the analogous small-TTL boundary success sits
one hour later: exactly 31 hours and one minute yields 3660 seconds. -/
theorem ocsp_ttl_boundary_amended (now : Int) :
    ocsp_ttl (some (now + 30 * 3600 + 60)) now = Except.error TtlErr.marginTooSmall ∧
      ocsp_ttl (some (now + 31 * 3600 + 60)) now = Except.ok 3660 := by
  constructor
  · simp only [ocsp_ttl, hourSec]
    split
    · split
      · omega
      · rfl
    · omega
  · simp only [ocsp_ttl, hourSec]
    split
    · split
      · simp only [Except.ok.injEq]
        omega
      · omega
    · omega

/-! ## Refresh engine: `_ocsp_refresh`, `_write_to_dbm`, `_ocsp_response_dbm`

The DBM store is an association of certificate keys to packaged values.  The
active store file may be absent (`none`); `apache_util.safe_copy` on a missing
source raises `errors.PluginError`.  The OCSP collaborator
(`ocsp.RevocationChecker`) is an oracle: it either reports the certificate
revoked, fails to fetch a response (leaving the scratch file unwritten and
returning False, after which packaging the missing file raises), or yields a
good response together with its optional nextUpdate time. -/

/-- Certificate identity key (`apache_util.certid_sha1`), abstract. -/
abbrev CertKey := Nat

/-- Raw OCSP response bytes. -/
abbrev Resp := List Nat

/-- Value stored in the DBM cache: expiry timestamp in microseconds, the 0x01
delimiter being implicit in the pairing, and the raw response. -/
structure DbmVal where
  expiryMicros : Int
  response : Resp
deriving DecidableEq, Repr

/-- Contents of a DBM cache file. -/
abbrev Store := List (CertKey × DbmVal)

/-- DBM key assignment `db[key] = value`: overwrite in place or append. -/
def storeSet : Store → CertKey → DbmVal → Store
  | [], k, v => [(k, v)]
  | (k', v') :: rest, k, v =>
    if k' = k then (k, v) :: rest else (k', v') :: storeSet rest k v

/-- Modelled from the spec: `apache_util.get_apache_ocsp_struct` (the Response
Packager) is outside the analysed file; per the spec the value is the expiry
timestamp in microseconds since epoch (current time + TTL), the 0x01 delimiter,
and the raw response bytes. -/
def get_apache_ocsp_struct (now ttl : Int) (response : Resp) : DbmVal :=
  ⟨(now + ttl) * 1000000, response⟩

/-- Outcome of `ocsp.RevocationChecker.ocsp_revoked_by_paths` on this run. -/
inductive OcspOutcome
  /-- collaborator reports the certificate revoked -/
  | revoked
  /-- response fetching failed: scratch file not written, returns False -/
  | fetchError
  /-- good response written to the scratch file, with its nextUpdate field -/
  | good (response : Resp) (nextUpdate : Option Int)
deriving DecidableEq, Repr

/-- Oracle inputs of one `_ocsp_refresh` run. -/
structure RefreshOracle where
  outcome : OcspOutcome
  /-- whether `apache_util.safe_copy` of the active store to the temp file succeeds -/
  copyOk : Bool
  /-- opening the temp file with `DBMHandler` succeeds -/
  dbmOpenOk : Bool
  /-- current time in seconds -/
  now : Int
deriving DecidableEq, Repr

/-- Filesystem state touched by a refresh. -/
structure RefreshSt where
  /-- does `cert_path` still exist on disk -/
  certPresent : Bool
  /-- contents of the active DBM store file, `none` when absent -/
  activeStore : Option Store
  /-- contents of the temp copy used by `_write_to_dbm`, `none` when absent -/
  tmpFile : Option Store
  /-- contents of the per-certificate scratch response file -/
  workResp : Option Resp
deriving DecidableEq, Repr

/-- Error classes a refresh can raise. -/
inductive RefreshErr
  /-- an `OCSPCertificateError`: certificate removed from the system -/
  | certRemoved
  /-- an `OCSPCertificateError`: certificate has been revoked -/
  | certRevoked
  /-- plain `errors.PluginError` (fetch, TTL, or store I/O failure) -/
  | pluginError
deriving DecidableEq, Repr

/-- Whether the error is of class `OCSPCertificateError`, i.e. prompts removal
of the certificate from the prefetch pool. -/
def RefreshErr.isEviction : RefreshErr → Bool
  | .certRemoved => true
  | .certRevoked => true
  | .pluginError => false

/-- Shallow embedding of `OCSPPrefetchMixin._write_to_dbm`: copy the active
file to a temp file, write the key into the temp copy, atomically rename the
temp copy over the active path.  Errors carry the post-failure state. -/
def write_to_dbm (o : RefreshOracle) (k : CertKey) (v : DbmVal) (st : RefreshSt) :
    Except (RefreshErr × RefreshSt) RefreshSt :=
  match st.activeStore with
  | none => Except.error (RefreshErr.pluginError, st)
  | some s =>
    if o.copyOk then
      if o.dbmOpenOk then
        Except.ok { st with
          activeStore := some (storeSet s k v),
          tmpFile := none }
      else
        Except.error (RefreshErr.pluginError, { st with tmpFile := some s })
    else
      Except.error (RefreshErr.pluginError, st)

/-- Shallow embedding of `OCSPPrefetchMixin._ocsp_response_dbm`: read the
nextUpdate time from the scratch response, compute the TTL, and package the
value; fails (with a plain `PluginError`) when the TTL calculation fails. -/
def ocsp_response_dbm (o : RefreshOracle) (response : Resp) (nextUpdate : Option Int) :
    Except RefreshErr DbmVal :=
  match ocsp_ttl nextUpdate o.now with
  | Except.error _ => Except.error RefreshErr.pluginError
  | Except.ok ttl => Except.ok (get_apache_ocsp_struct o.now ttl response)

/-- Shallow embedding of `OCSPPrefetchMixin._ocsp_refresh`.  The `finally`
block removes the scratch response file on every exit path of the inner try,
tolerating its absence. -/
def ocsp_refresh (o : RefreshOracle) (certKey : CertKey) (st : RefreshSt) :
    Except (RefreshErr × RefreshSt) RefreshSt :=
  if st.certPresent then
    match o.outcome with
    | OcspOutcome.revoked =>
      Except.error (RefreshErr.certRevoked, { st with workResp := none })
    | OcspOutcome.fetchError =>
      Except.error (RefreshErr.pluginError, { st with workResp := none })
    | OcspOutcome.good response nextUpdate =>
      let st1 := { st with workResp := some response }
      match ocsp_response_dbm o response nextUpdate with
      | Except.error e => Except.error (e, { st1 with workResp := none })
      | Except.ok v =>
        match write_to_dbm o certKey v st1 with
        | Except.error (e, st2) => Except.error (e, { st2 with workResp := none })
        | Except.ok st2 => Except.ok { st2 with workResp := none }
  else
    Except.error (RefreshErr.certRemoved, st)

/-! ## Claims C1 and C8 -/

/-- Frame lemma for `_write_to_dbm`: a failing write leaves the active store
untouched (the temp copy may have been created) and raises a plain
`PluginError`. -/
theorem write_to_dbm_error (o : RefreshOracle) (k : CertKey) (v : DbmVal)
    (st : RefreshSt) (e : RefreshErr) (st' : RefreshSt)
    (h : write_to_dbm o k v st = Except.error (e, st')) :
    st'.activeStore = st.activeStore ∧ e = RefreshErr.pluginError := by
  unfold write_to_dbm at h
  cases hs : st.activeStore with
  | none =>
    simp only [hs] at h
    cases h
    exact ⟨hs, rfl⟩
  | some s =>
    simp only [hs] at h
    by_cases hc : o.copyOk = true
    · rw [if_pos hc] at h
      by_cases hd : o.dbmOpenOk = true
      · rw [if_pos hd] at h
        exact Except.noConfusion h
      · rw [if_neg hd] at h
        cases h
        exact ⟨rfl, rfl⟩
    · rw [if_neg hc] at h
      cases h
      exact ⟨hs, rfl⟩

/-- Success lemma for `_write_to_dbm`: a successful write required the copy
and the DBM open to succeed, and replaces the active store with the copy
holding the new key. -/
theorem write_to_dbm_ok (o : RefreshOracle) (k : CertKey) (v : DbmVal)
    (st : RefreshSt) (st' : RefreshSt)
    (h : write_to_dbm o k v st = Except.ok st') :
    o.copyOk = true ∧ o.dbmOpenOk = true ∧
      ∃ s, st.activeStore = some s ∧
        st'.activeStore = some (storeSet s k v) := by
  unfold write_to_dbm at h
  cases hs : st.activeStore with
  | none =>
    simp only [hs] at h
    exact Except.noConfusion h
  | some s =>
    simp only [hs] at h
    by_cases hc : o.copyOk = true
    · rw [if_pos hc] at h
      by_cases hd : o.dbmOpenOk = true
      · rw [if_pos hd] at h
        cases h
        exact ⟨hc, hd, s, rfl, rfl⟩
      · rw [if_neg hd] at h
        exact Except.noConfusion h
    · rw [if_neg hc] at h
      exact Except.noConfusion h

/-- A failing `_ocsp_response_dbm` raises a plain `PluginError`. -/
theorem ocsp_response_dbm_error (o : RefreshOracle) (response : Resp)
    (nextUpdate : Option Int) (e : RefreshErr)
    (h : ocsp_response_dbm o response nextUpdate = Except.error e) :
    e = RefreshErr.pluginError := by
  unfold ocsp_response_dbm at h
  split at h
  · cases h
    rfl
  · exact Except.noConfusion h

/-- A successful `_ocsp_response_dbm` packaged the response under a TTL that
the TTL calculator accepted. -/
theorem ocsp_response_dbm_ok (o : RefreshOracle) (response : Resp)
    (nextUpdate : Option Int) (v : DbmVal)
    (h : ocsp_response_dbm o response nextUpdate = Except.ok v) :
    ∃ ttl, ocsp_ttl nextUpdate o.now = Except.ok ttl ∧
      v = get_apache_ocsp_struct o.now ttl response := by
  unfold ocsp_response_dbm at h
  split at h
  · exact Except.noConfusion h
  · rename_i ttl httl
    cases h
    exact ⟨ttl, httl, rfl⟩

/-- C1: a failing refresh never changes the active store; the active store is
written (to the copy-write-rename result) exactly on the all-steps-succeed
path, where it gains the packaged value under the certificate key. -/
theorem ocsp_refresh_store_written_only_on_success
    (o : RefreshOracle) (certKey : CertKey) (st : RefreshSt) :
    (∀ e st', ocsp_refresh o certKey st = Except.error (e, st') →
      st'.activeStore = st.activeStore) ∧
    (∀ st', ocsp_refresh o certKey st = Except.ok st' →
      st.certPresent = true ∧ o.copyOk = true ∧ o.dbmOpenOk = true ∧
      ∃ s response nextUpdate ttl,
        st.activeStore = some s ∧
        o.outcome = OcspOutcome.good response nextUpdate ∧
        ocsp_ttl nextUpdate o.now = Except.ok ttl ∧
        st'.activeStore =
          some (storeSet s certKey (get_apache_ocsp_struct o.now ttl response))) := by
  constructor
  · intro e st' h
    unfold ocsp_refresh at h
    by_cases hp : st.certPresent = true
    · rw [if_pos hp] at h
      cases ho : o.outcome with
      | revoked =>
        simp only [ho] at h
        cases h
        rfl
      | fetchError =>
        simp only [ho] at h
        cases h
        rfl
      | good response nextUpdate =>
        simp only [ho] at h
        cases hr : ocsp_response_dbm o response nextUpdate with
        | error e2 =>
          simp only [hr] at h
          cases h
          rfl
        | ok v =>
          simp only [hr] at h
          cases hw : write_to_dbm o certKey v { st with workResp := some response } with
          | error p =>
            obtain ⟨e2, st2⟩ := p
            simp only [hw] at h
            cases h
            exact (write_to_dbm_error _ _ _ _ _ _ hw).1
          | ok st2 =>
            simp only [hw] at h
            exact Except.noConfusion h
    · rw [if_neg hp] at h
      cases h
      rfl
  · intro st' h
    unfold ocsp_refresh at h
    by_cases hp : st.certPresent = true
    · rw [if_pos hp] at h
      cases ho : o.outcome with
      | revoked =>
        simp only [ho] at h
        exact Except.noConfusion h
      | fetchError =>
        simp only [ho] at h
        exact Except.noConfusion h
      | good response nextUpdate =>
        simp only [ho] at h
        cases hr : ocsp_response_dbm o response nextUpdate with
        | error e2 =>
          simp only [hr] at h
          exact Except.noConfusion h
        | ok v =>
          simp only [hr] at h
          cases hw : write_to_dbm o certKey v { st with workResp := some response } with
          | error p =>
            obtain ⟨e2, st2⟩ := p
            simp only [hw] at h
            exact Except.noConfusion h
          | ok st2 =>
            simp only [hw] at h
            cases h
            obtain ⟨hc, hd, s, hs, hstore⟩ := write_to_dbm_ok o certKey v
              { st with workResp := some response } st2 hw
            obtain ⟨ttl, httl, hv⟩ := ocsp_response_dbm_ok o response nextUpdate v hr
            subst hv
            exact ⟨hp, hc, hd, s, response, nextUpdate, ttl, hs, rfl, httl, hstore⟩
    · rw [if_neg hp] at h
      exact Except.noConfusion h

/-- Witness for C1 at concrete inputs: a refresh with a missing certificate
fails and leaves the store unchanged, and a fully successful run installs the
packaged value. -/
theorem ocsp_refresh_store_written_only_on_success_witness :
    (let st : RefreshSt := ⟨false, some [(7, ⟨1, [2]⟩)], none, none⟩
     let o : RefreshOracle := ⟨OcspOutcome.revoked, true, true, 0⟩
     ∀ e st', ocsp_refresh o 7 st = Except.error (e, st') →
       st'.activeStore = st.activeStore) ∧
    (let st : RefreshSt := ⟨true, some [], none, none⟩
     let o : RefreshOracle := ⟨OcspOutcome.good [9] (some 200000), true, true, 0⟩
     ∀ st', ocsp_refresh o 3 st = Except.ok st' →
       st.certPresent = true ∧ o.copyOk = true ∧ o.dbmOpenOk = true ∧
       ∃ s response nextUpdate ttl,
         st.activeStore = some s ∧
         o.outcome = OcspOutcome.good response nextUpdate ∧
         ocsp_ttl nextUpdate o.now = Except.ok ttl ∧
         st'.activeStore =
           some (storeSet s 3 (get_apache_ocsp_struct o.now ttl response))) :=
  ⟨(ocsp_refresh_store_written_only_on_success
      ⟨OcspOutcome.revoked, true, true, 0⟩ 7
      ⟨false, some [(7, ⟨1, [2]⟩)], none, none⟩).1,
   (ocsp_refresh_store_written_only_on_success
      ⟨OcspOutcome.good [9] (some 200000), true, true, 0⟩ 3
      ⟨true, some [], none, none⟩).2⟩

/-- C8: a refresh raises a pool-eviction-class error (`OCSPCertificateError`)
exactly when the certificate file is missing or the collaborator reports it
revoked; and in each of those situations it does raise such an error. -/
theorem ocsp_refresh_error_classification
    (o : RefreshOracle) (certKey : CertKey) (st : RefreshSt) :
    (∀ e st', ocsp_refresh o certKey st = Except.error (e, st') →
      (e.isEviction = true ↔
        (st.certPresent = false ∨ o.outcome = OcspOutcome.revoked))) ∧
    ((st.certPresent = false ∨ o.outcome = OcspOutcome.revoked) →
      ∃ e st', ocsp_refresh o certKey st = Except.error (e, st') ∧
        e.isEviction = true) := by
  constructor
  · intro e st' h
    unfold ocsp_refresh at h
    by_cases hp : st.certPresent = true
    · rw [if_pos hp] at h
      cases ho : o.outcome with
      | revoked =>
        simp only [ho] at h
        cases h
        simp [RefreshErr.isEviction, ho]
      | fetchError =>
        simp only [ho] at h
        cases h
        simp [RefreshErr.isEviction, hp, ho]
      | good response nextUpdate =>
        simp only [ho] at h
        cases hr : ocsp_response_dbm o response nextUpdate with
        | error e2 =>
          simp only [hr] at h
          cases h
          have he := ocsp_response_dbm_error _ _ _ _ hr
          subst he
          simp [RefreshErr.isEviction, hp, ho]
        | ok v =>
          simp only [hr] at h
          cases hw : write_to_dbm o certKey v { st with workResp := some response } with
          | error p =>
            obtain ⟨e2, st2⟩ := p
            simp only [hw] at h
            cases h
            have he := (write_to_dbm_error _ _ _ _ _ _ hw).2
            subst he
            simp [RefreshErr.isEviction, hp, ho]
          | ok st2 =>
            simp only [hw] at h
            exact Except.noConfusion h
    · rw [if_neg hp] at h
      cases h
      simp only [RefreshErr.isEviction, true_iff]
      left
      simpa using hp
  · intro hcond
    unfold ocsp_refresh
    by_cases hp : st.certPresent = true
    · have hrev : o.outcome = OcspOutcome.revoked := by
        rcases hcond with hmiss | hrev
        · rw [hp] at hmiss; cases hmiss
        · exact hrev
      refine ⟨RefreshErr.certRevoked, { st with workResp := none }, ?_, rfl⟩
      rw [if_pos hp, hrev]
    · refine ⟨RefreshErr.certRemoved, st, ?_, rfl⟩
      rw [if_neg hp]

/-- Witness for C8 at a concrete input: a revoked certificate yields an
eviction-class error. -/
theorem ocsp_refresh_error_classification_witness :
    (let o : RefreshOracle := ⟨OcspOutcome.revoked, true, true, 0⟩
     let st : RefreshSt := ⟨true, some [], none, none⟩
     ∃ e st', ocsp_refresh o 5 st = Except.error (e, st') ∧
       e.isEviction = true) :=
  (ocsp_refresh_error_classification
    ⟨OcspOutcome.revoked, true, true, 0⟩ 5 ⟨true, some [], none, none⟩).2
    (Or.inr rfl)

/-! ## Prefetch state store: `_ocsp_prefetch_save`, `_ocsp_prefetch_remove`,
`_ocsp_prefetch_fetch_state`

The PluginStorage collaborator holds an in-memory value for the
`ocsp_prefetch` namespace (`mem`, updated by `put`, `none` when the key was
never stored — `fetch` then raises `KeyError`) and the durable on-disk value
(`disk`, updated only by `save`). -/

/-- A Prefetch Entry: `{"lastupdate": ..., "chain_path": ...}`. -/
structure Entry where
  lastupdate : Int
  chain_path : String
deriving DecidableEq, Repr

/-- The `ocsp_prefetch` mapping from certificate path to entry, in insertion
order (a Python dict). -/
abbrev PrefetchMap := List (String × Entry)

/-- Dict lookup: first binding for the key. -/
def alookup : PrefetchMap → String → Option Entry
  | [], _ => none
  | (k', v) :: rest, k => if k' = k then some v else alookup rest k

/-- Dict assignment `d[k] = v`: overwrite in place or append. -/
def aset : PrefetchMap → String → Entry → PrefetchMap
  | [], k, v => [(k, v)]
  | (k', v') :: rest, k, v =>
    if k' = k then (k, v) :: rest else (k', v') :: aset rest k v

/-- Dict removal `d.pop(k)` (the key's bindings are dropped). -/
def aerase (m : PrefetchMap) (k : String) : PrefetchMap :=
  m.filter (fun p => p.1 ≠ k)

/-- The PluginStorage collaborator, restricted to the `ocsp_prefetch` key. -/
structure PStorage where
  /-- in-memory value after `put` calls, as `fetch` sees it -/
  mem : Option PrefetchMap
  /-- durable value, rewritten by `save` -/
  disk : Option PrefetchMap
deriving DecidableEq, Repr

/-- Embedding of `storage.put("ocsp_prefetch", v)`. -/
def storage_put (st : PStorage) (v : PrefetchMap) : PStorage :=
  { st with mem := some v }

/-- Embedding of `storage.save()`. -/
def storage_save (st : PStorage) : PStorage :=
  { st with disk := st.mem }

/-- Embedding of `storage.fetch("ocsp_prefetch")`; `none` models the `KeyError` raise. -/
def storage_fetch (st : PStorage) : Option PrefetchMap :=
  st.mem

/-- The mixin state relevant to prefetch tracking: the in-memory
`_ocsp_prefetch` map and the PluginStorage collaborator. -/
structure MixSt where
  prefetch : PrefetchMap
  storage : PStorage
deriving DecidableEq, Repr

/-- Shallow embedding of `OCSPPrefetchMixin._ocsp_prefetch_save`: insert the
entry with `lastupdate = time.time()`, `put` the map, and `save`. -/
def ocsp_prefetch_save (cert_path chain_path : String) (now : Int) (st : MixSt) :
    MixSt :=
  let m := aset st.prefetch cert_path ⟨now, chain_path⟩
  { prefetch := m, storage := storage_save (storage_put st.storage m) }

/-- Shallow embedding of `OCSPPrefetchMixin._ocsp_prefetch_remove`: `pop` the
entry (raising `KeyError`, modelled as `none`, when absent) and `put` the map
without calling `save`. -/
def ocsp_prefetch_remove (cert_path : String) (st : MixSt) : Option MixSt :=
  match alookup st.prefetch cert_path with
  | none => none
  | some _ =>
    let m := aerase st.prefetch cert_path
    some { prefetch := m, storage := storage_put st.storage m }

/-- Shallow embedding of `OCSPPrefetchMixin._ocsp_prefetch_fetch_state`:
populate the in-memory map from storage, falling back to an empty dict when
the key was never stored. -/
def ocsp_prefetch_fetch_state (st : MixSt) : MixSt :=
  { st with prefetch := (storage_fetch st.storage).getD [] }

/-! ## Claim C9 -/

/-- C9: removing a certificate from the prefetch pool updates the in-memory
map and the storage collaborator's in-memory value via `put`, but, unlike a
successful refresh's `_ocsp_prefetch_save`, never calls `save()`: the durable
`disk` value is unchanged, and the removal reaches `disk` only once some later
operation calls `save()` (here shown by applying `storage_save` afterwards),
whereas `_ocsp_prefetch_save` itself already rewrites `disk`. -/
theorem prefetch_remove_puts_but_never_saves
    (cert_path chain_path : String) (now : Int) (st : MixSt) (st' : MixSt)
    (h : ocsp_prefetch_remove cert_path st = some st') :
    st'.storage.disk = st.storage.disk ∧
    st'.prefetch = aerase st.prefetch cert_path ∧
    st'.storage.mem = some (aerase st.prefetch cert_path) ∧
    (storage_save st'.storage).disk = some (aerase st.prefetch cert_path) ∧
    (ocsp_prefetch_save cert_path chain_path now st).storage.disk =
      some (aset st.prefetch cert_path ⟨now, chain_path⟩) := by
  unfold ocsp_prefetch_remove at h
  cases hl : alookup st.prefetch cert_path with
  | none =>
    simp only [hl] at h
    exact Option.noConfusion h
  | some e =>
    simp only [hl] at h
    cases h
    exact ⟨rfl, rfl, rfl, rfl, rfl⟩

/-- Witness for C9 at a concrete input: removing a tracked certificate leaves
the durable value untouched. -/
theorem prefetch_remove_puts_but_never_saves_witness :
    (let st : MixSt :=
      ⟨[("a", ⟨3, "ch"⟩)], ⟨some [("a", ⟨3, "ch"⟩)], some [("a", ⟨3, "ch"⟩)]⟩⟩
     let st' : MixSt := ⟨[], ⟨some [], some [("a", ⟨3, "ch"⟩)]⟩⟩
     st'.storage.disk = st.storage.disk ∧
     st'.prefetch = aerase st.prefetch "a" ∧
     st'.storage.mem = some (aerase st.prefetch "a") ∧
     (storage_save st'.storage).disk = some (aerase st.prefetch "a") ∧
     (ocsp_prefetch_save "a" "ch2" 9 st).storage.disk =
       some (aset st.prefetch "a" ⟨9, "ch2"⟩)) :=
  prefetch_remove_puts_but_never_saves "a" "ch2" 9
    ⟨[("a", ⟨3, "ch"⟩)], ⟨some [("a", ⟨3, "ch"⟩)], some [("a", ⟨3, "ch"⟩)]⟩⟩
    ⟨[], ⟨some [], some [("a", ⟨3, "ch"⟩)]⟩⟩
    (by decide)

/-! ## Scheduler / driver: `_ocsp_try_refresh`, `update_ocsp_prefetch`,
`deploy_ocsp_prefetch`

For the sweep-level claims the per-certificate refresh outcome is an oracle:
`success` (the refresh installed a staple), `evict` (the refresh raised
`OCSPCertificateError`), `transient` (the refresh raised a plain
`errors.PluginError`).  The dbm-file effects of the refresh itself are
covered by `ocsp_refresh` above; here only the prefetch map and the storage
collaborator are tracked.  `none` results model a Python exception escaping
(the `KeyError` a `dict.pop`/index of an untracked key would raise). -/

/-- Per-certificate refresh outcome, as seen by `_ocsp_try_refresh`. -/
inductive ROutcome
  | success
  | evict
  | transient
deriving DecidableEq, Repr

/-- Oracle inputs of one sweep: the per-certificate outcomes, the current
time, and the `OCSP_INTERNAL_TTL` constant. -/
structure SweepOracle where
  outcome : String → ROutcome
  now : Int
  ocspInternalTTL : Int

/-- Result of `_ocsp_try_refresh`: normal return, or the re-raised
`OCSPCertificateError` after pool removal. -/
inductive TryRes
  | ok (st : MixSt)
  | evicted (st : MixSt)

/-- Shallow embedding of `OCSPPrefetchMixin._ocsp_try_refresh`: on
`OCSPCertificateError` remove the certificate from the pool, log, and
re-raise; on any other `PluginError` log and swallow. -/
def ocsp_try_refresh (outcome : String → ROutcome) (cert_path chain_path : String)
    (st : MixSt) : Option TryRes :=
  match outcome cert_path with
  | ROutcome.success => some (TryRes.ok st)
  | ROutcome.transient => some (TryRes.ok st)
  | ROutcome.evict =>
    match ocsp_prefetch_remove cert_path st with
    | some st' => some (TryRes.evicted st')
    | none => none

/-- The per-certificate loop body of `update_ocsp_prefetch`, iterating over
the snapshot `list(self._ocsp_prefetch)` of keys: look the entry up in the
current map, check whether a refresh is due, try the refresh, and on normal
return persist the new entry; on the re-raised `OCSPCertificateError`
continue without saving. -/
def update_go (o : SweepOracle) : List String → MixSt → Option MixSt
  | [], st => some st
  | c :: rest, st =>
    match alookup st.prefetch c with
    | none => none
    | some pf =>
      if ocsp_refresh_needed o.ocspInternalTTL pf.lastupdate o.now then
        match ocsp_try_refresh o.outcome c pf.chain_path st with
        | none => none
        | some (TryRes.evicted st2) => update_go o rest st2
        | some (TryRes.ok st2) =>
          update_go o rest (ocsp_prefetch_save c pf.chain_path o.now st2)
      else update_go o rest st

/-- Shallow embedding of `OCSPPrefetchMixin.update_ocsp_prefetch` (the
periodic sweep): populate the state from storage, return early when nothing
is tracked, and loop over a snapshot of the tracked keys. -/
def update_ocsp_prefetch (o : SweepOracle) (st0 : MixSt) : Option MixSt :=
  if (ocsp_prefetch_fetch_state st0).prefetch = [] then
    some (ocsp_prefetch_fetch_state st0)
  else
    update_go o ((ocsp_prefetch_fetch_state st0).prefetch.map Prod.fst)
      (ocsp_prefetch_fetch_state st0)

/-- Shallow embedding of `OCSPPrefetchMixin.deploy_ocsp_prefetch` (the
post-renewal hook). -/
def deploy_ocsp_prefetch (o : SweepOracle) (cert_path chain_path : String)
    (st0 : MixSt) : Option MixSt :=
  if (ocsp_prefetch_fetch_state st0).prefetch = [] then
    some (ocsp_prefetch_fetch_state st0)
  else if (alookup (ocsp_prefetch_fetch_state st0).prefetch cert_path).isSome then
    match ocsp_try_refresh o.outcome cert_path chain_path
        (ocsp_prefetch_fetch_state st0) with
    | none => none
    | some (TryRes.evicted st2) => some st2
    | some (TryRes.ok st2) =>
      some (ocsp_prefetch_save cert_path chain_path o.now st2)
  else some (ocsp_prefetch_fetch_state st0)

/-- The effect of one sweep pass on one tracked entry: untouched when not
due; dropped when the refresh evicts; replaced by a fresh entry stamped with
the sweep time on success and on a swallowed transient failure alike. -/
def sweepEntry (o : SweepOracle) (c : String) (e : Entry) : Option Entry :=
  if ocsp_refresh_needed o.ocspInternalTTL e.lastupdate o.now then
    match o.outcome c with
    | ROutcome.evict => none
    | ROutcome.success => some ⟨o.now, e.chain_path⟩
    | ROutcome.transient => some ⟨o.now, e.chain_path⟩
  else some e

/-- Dict lookup after assignment. -/
theorem alookup_aset (m : PrefetchMap) (k : String) (v : Entry) (x : String) :
    alookup (aset m k v) x = if k = x then some v else alookup m x := by
  induction m with
  | nil =>
    by_cases hkx : k = x <;> simp [aset, alookup, hkx]
  | cons p rest ih =>
    obtain ⟨k', v'⟩ := p
    by_cases hk : k' = k
    · subst hk
      by_cases hkx : k' = x <;> simp [aset, alookup, hkx]
    · by_cases hx : k' = x
      · subst hx
        have : ¬ k = k' := fun he => hk he.symm
        simp [aset, alookup, hk, this]
      · simp [aset, alookup, hk, hx, ih]

/-- Dict lookup after removal. -/
theorem alookup_aerase (m : PrefetchMap) (k : String) (x : String) :
    alookup (aerase m k) x = if k = x then none else alookup m x := by
  induction m with
  | nil =>
    by_cases hkx : k = x <;> simp [aerase, alookup, hkx]
  | cons p rest ih =>
    obtain ⟨k', v'⟩ := p
    by_cases hk : k' = k
    · subst hk
      have hne : ¬ (k', v').1 ≠ k' := by simp
      by_cases hkx : k' = x
      · subst hkx
        simpa [aerase, List.filter] using ih
      · simpa [aerase, List.filter, alookup, hkx] using ih
    · by_cases hx : k' = x
      · subst hx
        have : ¬ k = k' := fun he => hk he.symm
        simp [aerase, List.filter, alookup, hk, this]
      · simpa [aerase, List.filter, alookup, hk, hx] using ih

/-- A key bound in the map has a lookup. -/
theorem alookup_isSome_of_mem (m : PrefetchMap) (x : String)
    (hx : x ∈ m.map Prod.fst) : (alookup m x).isSome = true := by
  induction m with
  | nil => simp at hx
  | cons p rest ih =>
    obtain ⟨k', v'⟩ := p
    by_cases hk : k' = x
    · simp [alookup, hk]
    · simp only [List.map_cons, List.mem_cons] at hx
      rcases hx with hx | hx

      · exact absurd hx.symm (fun he => hk he)
      · simp [alookup, hk, ih hx]

/-- A successful lookup means the key is bound. -/
theorem mem_of_alookup_eq_some (m : PrefetchMap) (x : String) (e : Entry)
    (h : alookup m x = some e) : x ∈ m.map Prod.fst := by
  induction m with
  | nil => simp [alookup] at h
  | cons p rest ih =>
    obtain ⟨k', v'⟩ := p
    by_cases hk : k' = x
    · simp [hk]
    · simp only [alookup, hk, if_neg] at h
      simp only [List.map_cons, List.mem_cons]
      exact Or.inr (ih h)

/-- Characterization of the sweep loop: over a duplicate-free snapshot of
tracked keys, the loop never lets an exception escape, and each key's final
binding is its own `sweepEntry` transform, independent of every other
certificate's outcome. -/
theorem update_go_char (o : SweepOracle) (ks : List String) :
    ∀ st : MixSt, ks.Nodup →
      (∀ k, k ∈ ks → (alookup st.prefetch k).isSome = true) →
      ∃ st', update_go o ks st = some st' ∧
        ∀ x, alookup st'.prefetch x =
          if x ∈ ks then (alookup st.prefetch x).bind (sweepEntry o x)
          else alookup st.prefetch x := by
  induction ks with
  | nil =>
    intro st _ _
    exact ⟨st, rfl, fun x => by simp⟩
  | cons c rest ih =>
    intro st hnd hin
    obtain ⟨pf, hpf⟩ := Option.isSome_iff_exists.mp (hin c (List.mem_cons_self c rest))
    have hcnr : c ∉ rest := (List.nodup_cons.mp hnd).1
    have hndr : rest.Nodup := (List.nodup_cons.mp hnd).2
    have step : ∃ st1, update_go o (c :: rest) st = update_go o rest st1 ∧
        ∀ x, alookup st1.prefetch x =
          if c = x then sweepEntry o c pf else alookup st.prefetch x := by
      by_cases hneed : ocsp_refresh_needed o.ocspInternalTTL pf.lastupdate o.now = true
      · cases houtc : o.outcome c with
        | success =>
          refine ⟨ocsp_prefetch_save c pf.chain_path o.now st, ?_, ?_⟩
          · simp only [update_go, hpf, hneed, if_true, ocsp_try_refresh, houtc]
          · intro x
            show alookup (aset st.prefetch c ⟨o.now, pf.chain_path⟩) x = _
            rw [alookup_aset]
            by_cases hcx : c = x
            · subst hcx
              simp [sweepEntry, hneed, houtc]
            · simp [hcx]
        | transient =>
          refine ⟨ocsp_prefetch_save c pf.chain_path o.now st, ?_, ?_⟩
          · simp only [update_go, hpf, hneed, if_true, ocsp_try_refresh, houtc]
          · intro x
            show alookup (aset st.prefetch c ⟨o.now, pf.chain_path⟩) x = _
            rw [alookup_aset]
            by_cases hcx : c = x
            · subst hcx
              simp [sweepEntry, hneed, houtc]
            · simp [hcx]
        | evict =>
          refine ⟨⟨aerase st.prefetch c, storage_put st.storage (aerase st.prefetch c)⟩,
            ?_, ?_⟩
          · simp only [update_go, hpf, hneed, if_true, ocsp_try_refresh, houtc,
              ocsp_prefetch_remove]
          · intro x
            show alookup (aerase st.prefetch c) x = _
            rw [alookup_aerase]
            by_cases hcx : c = x
            · subst hcx
              simp [sweepEntry, hneed, houtc]
            · simp [hcx]
      · refine ⟨st, ?_, ?_⟩
        · simp only [update_go, hpf, hneed, if_false, Bool.false_eq_true]
        · intro x
          by_cases hcx : c = x
          · subst hcx
            rw [if_pos rfl, hpf]
            unfold sweepEntry
            rw [if_neg hneed]
          · simp [hcx]
    obtain ⟨st1, hst1, hA⟩ := step
    have hin' : ∀ k, k ∈ rest → (alookup st1.prefetch k).isSome = true := by
      intro k hk
      rw [hA k, if_neg (by intro hck; subst hck; exact hcnr hk)]
      exact hin k (List.mem_cons_of_mem c hk)
    obtain ⟨st', hgo, hchar⟩ := ih st1 hndr hin'
    refine ⟨st', by rw [hst1]; exact hgo, ?_⟩
    intro x
    rw [hchar x]
    by_cases hx : x ∈ rest
    · have hcx : ¬ c = x := by intro hc; subst hc; exact hcnr hx
      rw [if_pos hx, if_pos (List.mem_cons_of_mem c hx), hA x, if_neg hcx]
    · by_cases hxc : x = c
      · subst hxc
        rw [if_neg hx, hA x, if_pos rfl, if_pos (List.mem_cons_self x rest), hpf]
        rfl
      · rw [if_neg hx, hA x, if_neg (fun hc => hxc hc.symm),
          if_neg (by simp [hxc, hx])]

/-! ## Claim C4 -/

/-- C4: the periodic sweep treats every tracked certificate independently: it
always returns normally (no exception escapes), and each tracked entry's
final binding depends only on its own due-check and refresh outcome — an
evicting failure removes the entry, a transient failure keeps it (with a
refreshed timestamp from the persistence step), a success refreshes it, and
other certificates' failures never affect it. -/
theorem update_sweep_isolation (o : SweepOracle) (st : MixSt) (m : PrefetchMap)
    (hm : storage_fetch st.storage = some m)
    (hnd : (m.map Prod.fst).Nodup) :
    ∃ st', update_ocsp_prefetch o st = some st' ∧
      ∀ c e, alookup m c = some e →
        alookup st'.prefetch c = sweepEntry o c e := by
  have hp1 : (ocsp_prefetch_fetch_state st).prefetch = m := by
    unfold ocsp_prefetch_fetch_state
    rw [hm]
    rfl
  unfold update_ocsp_prefetch
  rw [hp1]
  by_cases hempty : m = []
  · subst hempty
    rw [if_pos rfl]
    refine ⟨ocsp_prefetch_fetch_state st, rfl, ?_⟩
    intro c e hce
    simp [alookup] at hce
  · rw [if_neg hempty]
    obtain ⟨st', hgo, hchar⟩ := update_go_char o (m.map Prod.fst)
      (ocsp_prefetch_fetch_state st) hnd
      (by intro k hk; rw [hp1]; exact alookup_isSome_of_mem m k hk)
    refine ⟨st', hgo, ?_⟩
    intro c e hce
    have hmem : c ∈ m.map Prod.fst := mem_of_alookup_eq_some m c e hce
    rw [hchar c, if_pos hmem, hp1, hce]
    rfl

/-- Witness for C4 at a concrete input: three tracked certificates, all due,
where the second one's refresh evicts; the sweep returns normally, the first
and third end up refreshed, the second is gone. -/
theorem update_sweep_isolation_witness :
    (let m : PrefetchMap := [("a", ⟨0, "ca"⟩), ("b", ⟨0, "cb"⟩), ("c", ⟨0, "cc"⟩)]
     let o : SweepOracle :=
       ⟨fun s => if s = "b" then ROutcome.evict else ROutcome.success, 100, 10⟩
     let st : MixSt := ⟨[], ⟨some m, some m⟩⟩
     ∃ st', update_ocsp_prefetch o st = some st' ∧
       ∀ c e, alookup m c = some e →
         alookup st'.prefetch c = sweepEntry o c e) :=
  update_sweep_isolation
    ⟨fun s => if s = "b" then ROutcome.evict else ROutcome.success, 100, 10⟩
    ⟨[], ⟨some [("a", ⟨0, "ca"⟩), ("b", ⟨0, "cb"⟩), ("c", ⟨0, "cc"⟩)],
         some [("a", ⟨0, "ca"⟩), ("b", ⟨0, "cb"⟩), ("c", ⟨0, "cc"⟩)]⟩⟩
    [("a", ⟨0, "ca"⟩), ("b", ⟨0, "cb"⟩), ("c", ⟨0, "cc"⟩)]
    rfl (by decide)

/-! ## Claim C10 -/

/-- C10: a transient (non-eviction) refresh failure is swallowed inside
`_ocsp_try_refresh` (normal return, state unchanged), after which both the
periodic sweep and the post-renewal deploy hook still persist a fresh
Prefetch Entry stamped with the current time; the entry then becomes due
again only once a full internal-TTL interval has passed beyond that stamp. -/
theorem transient_failure_persists_new_lastupdate
    (o : SweepOracle) (st : MixSt) (m : PrefetchMap) (c : String) (e : Entry)
    (hm : storage_fetch st.storage = some m)
    (hnd : (m.map Prod.fst).Nodup)
    (hc : alookup m c = some e)
    (htr : o.outcome c = ROutcome.transient)
    (hdue : ocsp_refresh_needed o.ocspInternalTTL e.lastupdate o.now = true) :
    (∀ st0 chain, ocsp_try_refresh o.outcome c chain st0 = some (TryRes.ok st0)) ∧
    (∃ st', update_ocsp_prefetch o st = some st' ∧
      alookup st'.prefetch c = some ⟨o.now, e.chain_path⟩) ∧
    (∀ chain, ∃ st', deploy_ocsp_prefetch o c chain st = some st' ∧
      alookup st'.prefetch c = some ⟨o.now, chain⟩ ∧
      st'.storage.disk = some (aset m c ⟨o.now, chain⟩)) ∧
    (∀ later, ocsp_refresh_needed o.ocspInternalTTL o.now later = true ↔
      o.now + o.ocspInternalTTL < later) := by
  have hp1 : (ocsp_prefetch_fetch_state st).prefetch = m := by
    unfold ocsp_prefetch_fetch_state
    rw [hm]
    rfl
  have hnonempty : m ≠ [] := by
    intro hme
    rw [hme] at hc
    simp [alookup] at hc
  refine ⟨?_, ?_, ?_, ?_⟩
  · intro st0 chain
    unfold ocsp_try_refresh
    rw [htr]
  · unfold update_ocsp_prefetch
    rw [hp1, if_neg hnonempty]
    obtain ⟨st', hgo, hchar⟩ := update_go_char o (m.map Prod.fst)
      (ocsp_prefetch_fetch_state st) hnd
      (by intro k hk; rw [hp1]; exact alookup_isSome_of_mem m k hk)
    refine ⟨st', hgo, ?_⟩
    have hmem : c ∈ m.map Prod.fst := mem_of_alookup_eq_some m c e hc
    rw [hchar c, if_pos hmem, hp1, hc]
    show sweepEntry o c e = _
    unfold sweepEntry
    rw [if_pos hdue, htr]
  · intro chain
    have htry : ocsp_try_refresh o.outcome c chain (ocsp_prefetch_fetch_state st) =
        some (TryRes.ok (ocsp_prefetch_fetch_state st)) := by
      unfold ocsp_try_refresh
      rw [htr]
    unfold deploy_ocsp_prefetch
    rw [hp1, if_neg hnonempty, hc]
    rw [if_pos (show (some e).isSome = true from rfl)]
    simp only [htry]
    refine ⟨ocsp_prefetch_save c chain o.now (ocsp_prefetch_fetch_state st), rfl,
      ?_, ?_⟩
    · show alookup (aset (ocsp_prefetch_fetch_state st).prefetch c ⟨o.now, chain⟩)
        c = _
      rw [hp1, alookup_aset, if_pos rfl]
    · show some (aset (ocsp_prefetch_fetch_state st).prefetch c ⟨o.now, chain⟩) = _
      rw [hp1]
  · intro later
    simp only [ocsp_refresh_needed]
    split
    · simp
      omega
    · simp
      omega

/-- Witness for C10 at a concrete input: a single tracked, due certificate
whose refresh fails transiently still ends up with a fresh entry. -/
theorem transient_failure_persists_new_lastupdate_witness :
    (let m : PrefetchMap := [("a", ⟨0, "ca"⟩)]
     let o : SweepOracle := ⟨fun _ => ROutcome.transient, 50, 10⟩
     let st : MixSt := ⟨[], ⟨some m, some m⟩⟩
     (∀ st0 chain, ocsp_try_refresh o.outcome "a" chain st0 = some (TryRes.ok st0)) ∧
     (∃ st', update_ocsp_prefetch o st = some st' ∧
       alookup st'.prefetch "a" = some ⟨o.now, "ca"⟩) ∧
     (∀ chain, ∃ st', deploy_ocsp_prefetch o "a" chain st = some st' ∧
       alookup st'.prefetch "a" = some ⟨o.now, chain⟩ ∧
       st'.storage.disk = some (aset m "a" ⟨o.now, chain⟩)) ∧
     (∀ later, ocsp_refresh_needed o.ocspInternalTTL o.now later = true ↔
       o.now + o.ocspInternalTTL < later)) :=
  transient_failure_persists_new_lastupdate
    ⟨fun _ => ROutcome.transient, 50, 10⟩
    ⟨[], ⟨some [("a", ⟨0, "ca"⟩)], some [("a", ⟨0, "ca"⟩)]⟩⟩
    [("a", ⟨0, "ca"⟩)] "a" ⟨0, "ca"⟩
    rfl (by decide) (by decide) rfl (by decide)

/-! ## Restart guard: `restart`, `_ocsp_prefetch_backup_db`,
`_ocsp_prefetch_restore_db`

`safe_copy` of a missing active file raises `errors.PluginError`, caught and
logged by `_ocsp_prefetch_backup_db`; `filesystem.replace` (a rename, so the
work file is consumed) of a missing work file raises an `IOError`, caught and
logged by `_ocsp_prefetch_restore_db`.  The underlying
`super().restart()` is an oracle: whether it succeeds, and the active-file
contents it leaves behind (Apache deletes and recreates the cache file). -/

/-- Contents of a DBM cache file as an opaque byte blob for the guard. -/
abbrev Content := List Nat

/-- State the restart guard touches. -/
structure GuardSt where
  prefetch : PrefetchMap
  storage : PStorage
  /-- contents of the active store file (`self._ocsp_store`) -/
  activeFile : Option Content
  /-- contents of the work file (`self._ocsp_work`) -/
  workFile : Option Content
deriving DecidableEq, Repr

/-- Shallow embedding of `OCSPPrefetchMixin._ocsp_prefetch_backup_db`:
best-effort copy of the active store to the work path; a failure is logged,
never raised. -/
def ocsp_prefetch_backup_db (st : GuardSt) : GuardSt :=
  match st.activeFile with
  | some c => { st with workFile := some c }
  | none => st

/-- Shallow embedding of `OCSPPrefetchMixin._ocsp_prefetch_restore_db`:
best-effort rename of the work file over the active path; a failure is
logged, never raised. -/
def ocsp_prefetch_restore_db (st : GuardSt) : GuardSt :=
  match st.workFile with
  | some c => { st with activeFile := some c, workFile := none }
  | none => st

/-- The `_ocsp_prefetch_fetch_state` lazy load as seen by the guard. -/
def guard_fetch_state (st : GuardSt) : GuardSt :=
  { st with prefetch := (storage_fetch st.storage).getD [] }

/-- The lazy-load step of `restart`: populate the prefetch map from storage
only when the in-memory map is empty. -/
def restart_loaded (st : GuardSt) : GuardSt :=
  if st.prefetch = [] then guard_fetch_state st else st

/-- The in-memory prefetch map after the guard's lazy load. -/
def guard_effective_prefetch (st : GuardSt) : PrefetchMap :=
  if st.prefetch = [] then (storage_fetch st.storage).getD [] else st.prefetch

/-- Shallow embedding of `OCSPPrefetchMixin.restart`: lazily load the
prefetch state; when certificates are tracked back the active store up, run
the underlying restart (which rewrites the active file to `superActive` and
succeeds iff `superOk`), and in a `finally` block restore the backup; when no
certificate is tracked, only the underlying restart runs.  Written with the
tracked/untracked split outermost (the `finally` guard re-reads the same
unchanged map the backup guard read); the error carries the post-failure
state. -/
def restart (superOk : Bool) (superActive : Option Content) (st : GuardSt) :
    Except (Unit × GuardSt) GuardSt :=
  if (restart_loaded st).prefetch = [] then
    if superOk then
      Except.ok { restart_loaded st with activeFile := superActive }
    else
      Except.error ((), { restart_loaded st with activeFile := superActive })
  else
    if superOk then
      Except.ok (ocsp_prefetch_restore_db
        { ocsp_prefetch_backup_db (restart_loaded st) with
            activeFile := superActive })
    else
      Except.error ((), ocsp_prefetch_restore_db
        { ocsp_prefetch_backup_db (restart_loaded st) with
            activeFile := superActive })

/-! ## Claim C2 -/

/-- C2: whenever at least one certificate is tracked after the lazy load and
the active store file exists, the guard copies it to the work path before the
underlying restart, and afterwards — whether that restart succeeded or raised
— the active file again holds its pre-restart contents, even if the restart
deleted it; backup and restore are total (their failures are only logged),
so the guard's result is an error exactly when the underlying restart
failed. -/
theorem restart_guard_restores_active_store
    (superOk : Bool) (superActive : Option Content) (st : GuardSt) (c : Content)
    (hp : guard_effective_prefetch st ≠ [])
    (ha : st.activeFile = some c) :
    (ocsp_prefetch_backup_db (restart_loaded st)).workFile = some c ∧
    (∀ st', restart superOk superActive st = Except.ok st' →
      superOk = true ∧ st'.activeFile = some c) ∧
    (∀ u st', restart superOk superActive st = Except.error (u, st') →
      superOk = false ∧ st'.activeFile = some c) := by
  have hLa : (restart_loaded st).activeFile = some c := by
    unfold restart_loaded
    by_cases he : st.prefetch = []
    · rw [if_pos he]
      exact ha
    · rw [if_neg he]
      exact ha
  have hLp : (restart_loaded st).prefetch = guard_effective_prefetch st := by
    unfold restart_loaded guard_effective_prefetch
    by_cases he : st.prefetch = []
    · rw [if_pos he, if_pos he]
      rfl
    · rw [if_neg he, if_neg he]
  have hback : (ocsp_prefetch_backup_db (restart_loaded st)).workFile = some c := by
    unfold ocsp_prefetch_backup_db
    rw [hLa]
  have hrest : (ocsp_prefetch_restore_db
      { ocsp_prefetch_backup_db (restart_loaded st) with
          activeFile := superActive }).activeFile = some c := by
    unfold ocsp_prefetch_restore_db
    rw [show ({ ocsp_prefetch_backup_db (restart_loaded st) with
        activeFile := superActive } : GuardSt).workFile = some c from hback]
  refine ⟨hback, ?_, ?_⟩
  · intro st' h
    unfold restart at h
    rw [hLp, if_neg hp] at h
    by_cases hok : superOk = true
    · rw [if_pos hok] at h
      cases h
      exact ⟨hok, hrest⟩
    · rw [if_neg hok] at h
      exact Except.noConfusion h
  · intro u st' h
    unfold restart at h
    rw [hLp, if_neg hp] at h
    by_cases hok : superOk = true
    · rw [if_pos hok] at h
      exact Except.noConfusion h
    · rw [if_neg hok] at h
      cases h
      simp only [Bool.not_eq_true] at hok
      exact ⟨hok, hrest⟩

/-- Witness for C2 at a concrete input: a tracked certificate, a populated
active store, and an underlying restart that fails after deleting the active
file; the guard re-raises the failure with the active contents restored. -/
theorem restart_guard_restores_active_store_witness :
    (let st : GuardSt :=
      ⟨[("a", ⟨0, "ca"⟩)], ⟨some [("a", ⟨0, "ca"⟩)], some [("a", ⟨0, "ca"⟩)]⟩,
        some [7, 8], some [9]⟩
     (ocsp_prefetch_backup_db (restart_loaded st)).workFile = some [7, 8] ∧
     (∀ st', restart false none st = Except.ok st' →
       false = true ∧ st'.activeFile = some [7, 8]) ∧
     (∀ u st', restart false none st = Except.error (u, st') →
       false = false ∧ st'.activeFile = some [7, 8])) :=
  restart_guard_restores_active_store false none
    ⟨[("a", ⟨0, "ca"⟩)], ⟨some [("a", ⟨0, "ca"⟩)], some [("a", ⟨0, "ca"⟩)]⟩,
      some [7, 8], some [9]⟩
    [7, 8] (by decide) rfl

/-! ## Enable flow: `enable_ocsp_prefetch`

Collaborators outside the analysed file are modelled from the spec:
`_enable_ocsp_stapling` applies a staple-enabling configuration change for a
virtual host (modelled as appending a marker to the in-progress
configuration), `recovery_routine` reverts the in-progress configuration
changes back to the last committed configuration, and `self.save` commits
them; the rollback's `self.restart()` affects only the dbm files (covered by
the restart guard above), not the state tracked here.  Failures of the
stapling step, the restart, the refresh and the final configuration save are
oracle inputs; every error raised inside the try block is a
`errors.PluginError`. -/

/-- Abstract configuration state: the list of applied change markers. -/
abbrev Conf := List Nat

/-- A virtual host candidate as `choose_vhosts` returns it. -/
structure VHost where
  ssl : Bool
  id : Nat
deriving DecidableEq, Repr

/-- Errors the enable flow can surface. -/
inductive EnErr
  /-- an `errors.NotSupportedError` from the compatibility pre-check -/
  | notSupported
  /-- an `errors.MisconfigurationError`: no eligible SSL virtual host -/
  | misconfiguration
  /-- a plain `errors.PluginError` raised inside the try block -/
  | plugin
  /-- the wrapped re-raise after rollback -/
  | wrapped (inner : EnErr)
deriving DecidableEq, Repr

/-- Oracle inputs of one enable run. -/
structure EnOracle where
  /-- the dbm compatibility pre-check passes -/
  compatOk : Bool
  /-- matched virtual hosts over all requested domains -/
  matchedVhosts : List VHost
  /-- whether `_enable_ocsp_stapling` succeeds for the chosen hosts -/
  stapleOk : Bool
  /-- the restart succeeds -/
  restartOk : Bool
  /-- the first `_ocsp_refresh` succeeds -/
  refreshOk : Bool
  /-- the final `self.save("Enabled OCSP prefetching")` succeeds -/
  configSaveOk : Bool
  /-- current time in seconds -/
  now : Int
deriving Repr

/-- State the enable flow touches: the configuration (committed and
in-progress) and the prefetch tracking state. -/
structure EnSt where
  /-- current configuration, committed changes plus in-progress ones -/
  conf : Conf
  /-- last committed configuration -/
  savedConf : Conf
  mix : MixSt
deriving DecidableEq, Repr

/-- Modelled from the spec: the staple-enabling configuration change of
`_enable_ocsp_stapling` for one virtual host. -/
def enable_ocsp_stapling (vh : VHost) (conf : Conf) : Conf :=
  conf ++ [vh.id]

/-- Modelled from the spec: `recovery_routine` reverts the in-progress
configuration changes. -/
def recovery_routine (st : EnSt) : EnSt :=
  { st with conf := st.savedConf }

/-- The SSL virtual hosts selected for prefetching. -/
def sslVhosts (vhs : List VHost) : List VHost :=
  vhs.filter (fun vh => vh.ssl)

/-- The configuration after applying stapling changes to every chosen
virtual host. -/
def enable_staple_all (pv : List VHost) (conf : Conf) : Conf :=
  pv.foldl (fun conf vh => enable_ocsp_stapling vh conf) conf

/-- The body of the big try block of `enable_ocsp_prefetch`: apply stapling
configuration to every chosen host, restart, refresh once, persist the
Prefetch Entry (`_ocsp_prefetch_save`: put + save), and commit the
configuration.  The error carries the post-failure state. -/
def enable_try (o : EnOracle) (cert_path chain_path : String) (pv : List VHost)
    (st : EnSt) : Except (EnErr × EnSt) EnSt :=
  if ¬ o.stapleOk then
    Except.error (EnErr.plugin, { st with conf := enable_staple_all pv st.conf })
  else if ¬ o.restartOk then
    Except.error (EnErr.plugin, { st with conf := enable_staple_all pv st.conf })
  else if ¬ o.refreshOk then
    Except.error (EnErr.plugin, { st with conf := enable_staple_all pv st.conf })
  else if o.configSaveOk then
    Except.ok { conf := enable_staple_all pv st.conf,
                savedConf := enable_staple_all pv st.conf,
                mix := ocsp_prefetch_save cert_path chain_path o.now st.mix }
  else
    Except.error (EnErr.plugin,
      { st with conf := enable_staple_all pv st.conf,
                mix := ocsp_prefetch_save cert_path chain_path o.now st.mix })

/-- Shallow embedding of `OCSPPrefetchMixin.enable_ocsp_prefetch`: the
compatibility pre-check and virtual-host selection run before the try block
(no state change on their failures); a `PluginError` inside the try block
triggers `recovery_routine` plus the rollback restart and is re-raised
wrapped with context. -/
def enable_ocsp_prefetch (o : EnOracle) (cert_path chain_path : String)
    (st : EnSt) : Except (EnErr × EnSt) EnSt :=
  if ¬ o.compatOk then Except.error (EnErr.notSupported, st)
  else if sslVhosts o.matchedVhosts = [] then
    Except.error (EnErr.misconfiguration, st)
  else
    match enable_try o cert_path chain_path (sslVhosts o.matchedVhosts) st with
    | Except.ok st' => Except.ok st'
    | Except.error (e, stE) =>
      Except.error (EnErr.wrapped e, recovery_routine stE)

/-- Every failure of the try-block body is a plain `PluginError` that leaves
the committed configuration untouched; failures of the stapling step, the
restart or the refresh additionally leave the whole prefetch tracking state
(in-memory map and storage) untouched. -/
theorem enable_try_error (o : EnOracle) (cert_path chain_path : String)
    (pv : List VHost) (st : EnSt) (e : EnErr) (stE : EnSt)
    (h : enable_try o cert_path chain_path pv st = Except.error (e, stE)) :
    e = EnErr.plugin ∧ stE.savedConf = st.savedConf ∧
    ((o.stapleOk = false ∨ o.restartOk = false ∨ o.refreshOk = false) →
      stE.mix = st.mix) := by
  unfold enable_try at h
  by_cases hs : o.stapleOk = true
  · rw [if_neg (by simp [hs])] at h
    by_cases hr : o.restartOk = true
    · rw [if_neg (by simp [hr])] at h
      by_cases hf : o.refreshOk = true
      · rw [if_neg (by simp [hf])] at h
        by_cases hc : o.configSaveOk = true
        · rw [if_pos hc] at h
          exact Except.noConfusion h
        · rw [if_neg hc] at h
          cases h
          refine ⟨rfl, rfl, ?_⟩
          intro hbad
          rcases hbad with hb | hb | hb
          · rw [hb] at hs
            exact Bool.noConfusion hs
          · rw [hb] at hr
            exact Bool.noConfusion hr
          · rw [hb] at hf
            exact Bool.noConfusion hf
      · rw [if_pos hf] at h
        cases h
        exact ⟨rfl, rfl, fun _ => rfl⟩
    · rw [if_pos hr] at h
      cases h
      exact ⟨rfl, rfl, fun _ => rfl⟩
  · rw [if_pos hs] at h
    cases h
    exact ⟨rfl, rfl, fun _ => rfl⟩

/-! ## Claim C5 -/

/-- C5 counterexample: when everything up to and including the Prefetch Entry
persistence succeeds but the final configuration save fails, the enable run
fails (rolled back and re-raised wrapped), yet the Prefetch Entry HAS been
durably persisted by `_ocsp_prefetch_save` — storage `put`/`save` precede
`self.save` and `recovery_routine` does not undo them — contradicting the
claim that a failed enable persists no Prefetch Entry. -/
theorem enable_save_failure_persists_entry :
    (let o : EnOracle := ⟨true, [⟨true, 1⟩], true, true, true, false, 5⟩
     let st : EnSt := ⟨[], [], ⟨[], ⟨none, none⟩⟩⟩
     enable_ocsp_prefetch o "cert" "chain" st =
       Except.error (EnErr.wrapped EnErr.plugin,
         ⟨[], [], ⟨[("cert", ⟨5, "chain"⟩)],
           ⟨some [("cert", ⟨5, "chain"⟩)], some [("cert", ⟨5, "chain"⟩)]⟩⟩⟩) ∧
     st.mix.storage.disk = none) := by
  constructor
  · rfl
  · rfl

/-- C5 amended: every failure inside the enable sequence is re-raised wrapped
with context after `recovery_routine` reverts the in-progress configuration
changes; failures of the stapling step, the restart or the refresh leave the
durable Prefetch state untouched, but a failure of the final configuration
save happens after the Prefetch Entry has already been persisted and the
rollback does not remove it; when the compatibility check or the
virtual-host selection fails, the corresponding error is raised with no
state change at all. -/
theorem enable_rollback_characterization (o : EnOracle)
    (cert_path chain_path : String) (st : EnSt) :
    (o.compatOk = true → sslVhosts o.matchedVhosts = [] →
      enable_ocsp_prefetch o cert_path chain_path st =
        Except.error (EnErr.misconfiguration, st)) ∧
    (o.compatOk = false →
      enable_ocsp_prefetch o cert_path chain_path st =
        Except.error (EnErr.notSupported, st)) ∧
    (∀ e st', enable_ocsp_prefetch o cert_path chain_path st =
        Except.error (e, st') →
      (e = EnErr.notSupported ∨ e = EnErr.misconfiguration) ∧ st' = st ∨
      (e = EnErr.wrapped EnErr.plugin ∧ st'.conf = st.savedConf ∧
        st'.savedConf = st.savedConf)) ∧
    (∀ e st', enable_ocsp_prefetch o cert_path chain_path st =
        Except.error (e, st') →
      (o.stapleOk = false ∨ o.restartOk = false ∨ o.refreshOk = false ∨
          e = EnErr.notSupported ∨ e = EnErr.misconfiguration) →
      st'.mix.storage.disk = st.mix.storage.disk) ∧
    (o.compatOk = true → sslVhosts o.matchedVhosts ≠ [] →
      o.stapleOk = true → o.restartOk = true → o.refreshOk = true →
      o.configSaveOk = false →
      ∃ st', enable_ocsp_prefetch o cert_path chain_path st =
          Except.error (EnErr.wrapped EnErr.plugin, st') ∧
        st'.mix.storage.disk =
          some (aset st.mix.prefetch cert_path ⟨o.now, chain_path⟩)) := by
  refine ⟨?_, ?_, ?_, ?_, ?_⟩
  · intro h1 h2
    unfold enable_ocsp_prefetch
    rw [if_neg (by simp [h1]), if_pos h2]
  · intro h1
    unfold enable_ocsp_prefetch
    rw [if_pos (by simp [h1])]
  · intro e st' h
    unfold enable_ocsp_prefetch at h
    by_cases hcompat : o.compatOk = true
    · rw [if_neg (by simp [hcompat])] at h
      by_cases hvh : sslVhosts o.matchedVhosts = []
      · rw [if_pos hvh] at h
        cases h
        exact Or.inl ⟨Or.inr rfl, rfl⟩
      · rw [if_neg hvh] at h
        cases htry : enable_try o cert_path chain_path
            (sslVhosts o.matchedVhosts) st with
        | ok stT =>
          simp only [htry] at h
          exact Except.noConfusion h
        | error p =>
          obtain ⟨e1, stE⟩ := p
          simp only [htry] at h
          cases h
          obtain ⟨he1, hsaved, _⟩ :=
            enable_try_error o cert_path chain_path _ st _ _ htry
          subst he1
          exact Or.inr ⟨rfl, hsaved, hsaved⟩
    · rw [if_pos (by simp [hcompat])] at h
      cases h
      exact Or.inl ⟨Or.inl rfl, rfl⟩
  · intro e st' h hflags
    unfold enable_ocsp_prefetch at h
    by_cases hcompat : o.compatOk = true
    · rw [if_neg (by simp [hcompat])] at h
      by_cases hvh : sslVhosts o.matchedVhosts = []
      · rw [if_pos hvh] at h
        cases h
        rfl
      · rw [if_neg hvh] at h
        cases htry : enable_try o cert_path chain_path
            (sslVhosts o.matchedVhosts) st with
        | ok stT =>
          simp only [htry] at h
          exact Except.noConfusion h
        | error p =>
          obtain ⟨e1, stE⟩ := p
          simp only [htry] at h
          cases h
          obtain ⟨he1, hsaved, hmix⟩ :=
            enable_try_error o cert_path chain_path _ st _ _ htry
          have hfl : o.stapleOk = false ∨ o.restartOk = false ∨
              o.refreshOk = false := by
            rcases hflags with hb | hb | hb | hb | hb
            · exact Or.inl hb
            · exact Or.inr (Or.inl hb)
            · exact Or.inr (Or.inr hb)
            · subst he1
              exact EnErr.noConfusion hb
            · subst he1
              exact EnErr.noConfusion hb
          show stE.mix.storage.disk = st.mix.storage.disk
          rw [hmix hfl]
    · rw [if_pos (by simp [hcompat])] at h
      cases h
      rfl
  · intro h1 h2 h3 h4 h5 h6
    unfold enable_ocsp_prefetch
    rw [if_neg (by simp [h1]), if_neg h2]
    unfold enable_try
    rw [if_neg (by simp [h3]), if_neg (by simp [h4]), if_neg (by simp [h5]),
      if_neg (by simp [h6])]
    exact ⟨_, rfl, rfl⟩

/-- Witness for the amended C5 at concrete inputs: a final-save failure run
surfaces the wrapped error with the entry persisted, and a run with no SSL
virtual host raises the configuration error with the state unchanged. -/
theorem enable_rollback_characterization_witness :
    (∃ st', enable_ocsp_prefetch ⟨true, [⟨true, 1⟩], true, true, true, false, 5⟩
        "c" "h" ⟨[], [], ⟨[], ⟨none, none⟩⟩⟩ =
          Except.error (EnErr.wrapped EnErr.plugin, st') ∧
      st'.mix.storage.disk = some (aset [] "c" ⟨5, "h"⟩)) ∧
    enable_ocsp_prefetch ⟨true, [⟨false, 1⟩], true, true, true, true, 5⟩
        "c" "h" ⟨[], [], ⟨[], ⟨none, none⟩⟩⟩ =
      Except.error (EnErr.misconfiguration, ⟨[], [], ⟨[], ⟨none, none⟩⟩⟩) :=
  ⟨(enable_rollback_characterization ⟨true, [⟨true, 1⟩], true, true, true, false, 5⟩
      "c" "h" ⟨[], [], ⟨[], ⟨none, none⟩⟩⟩).2.2.2.2
      rfl (by decide) rfl rfl rfl rfl,
   (enable_rollback_characterization ⟨true, [⟨false, 1⟩], true, true, true, true, 5⟩
      "c" "h" ⟨[], [], ⟨[], ⟨none, none⟩⟩⟩).1 rfl (by decide)⟩

end PrefetchOcsp
